import Mathlib

/-!
Node health probe (`main.go`)

A shallow embedding of the health-check program: the connection manager
(`ConnectToNode`, `IsConnected`, `TryToConnect`), the two probe handlers
(`CheckReadNode`, `CheckLiveNode`) and the reference-height fetch
(`LoadBlockNumberEtherscan`).

The program talks to three outside parties: the node (through `ethclient`), the
block explorer (through `net/http`) and the log.  What the outside parties answer
is a parameter (`World`); what the program does to them is recorded in a trace
kept next to the three package-level variables (`Machine`).  A Go run-time panic
(a nil dereference, a slice bound out of range) is a result of its own, never
confused with a returned value.
-/

namespace HealthCheck

/-! ## Data -/

/-- The `Config` struct. -/
structure Config where
  NodeUrl : String
  ApiKey : String
  AppPort : String
  BlockLag : Nat
deriving DecidableEq, Repr

/-- The `EtherscanNetworks` table. -/
def EtherscanNetworksTable : List (Nat × String) :=
  [(1, "api"), (3, "api-ropsten"), (4, "api-rinkeby"), (42, "api-kovan"), (401697, "api-tobalaba")]

/-- The map index `EtherscanNetworks[netId]`: the zero value `""` for an absent key. -/
def EtherscanNetworks (netId : Nat) : String :=
  (EtherscanNetworksTable.lookup netId).getD ""

/-- The call `fmt.Sprintf(EtherscanAPIURL, network, key)`: the two `%s` verbs of
`EtherscanAPIURL` replaced by the arguments. -/
def EtherscanAPIURL (network key : String) : String :=
  "https://" ++ network ++ ".etherscan.io/api?module=proxy&action=eth_blockNumber&apikey=" ++ key

def StatusOK : Nat := 200

def StatusServiceUnavailable : Nat := 503

/-- A non-nil `*ethclient.Client`. -/
structure Client where
  id : Nat
deriving DecidableEq, Repr

/-- The fields of `ethereum.SyncProgress` that the program reads. -/
structure SyncProgress where
  CurrentBlock : Nat
  HighestBlock : Nat
deriving DecidableEq, Repr

/-- The Go run-time panics that the program can raise. -/
inductive Panic
  | nilDereference
  | sliceBounds
deriving DecidableEq, Repr

/-- What a call yields: a value, or a run-time panic that unwinds the caller. -/
inductive Result (α : Type)
  | value (a : α)
  | panic (p : Panic)
deriving DecidableEq, Repr

/-- What the program does to the outside, in order. -/
inductive Event
  | dial (url : String)
  | sleep (seconds : Nat)
  | httpGet (url : String)
  | logError (err : String)
  | logText (msg : String)
deriving DecidableEq, Repr

/-- The package-level variables `client`, `config`, `netId`, and the trace of what
the program has done so far (oldest first). -/
structure Machine where
  client : Option Client
  config : Config
  netId : Nat
  trace : List Event
deriving DecidableEq, Repr

def Machine.emit (m : Machine) (e : Event) : Machine :=
  { m with trace := m.trace ++ [e] }

/-- A JSON value, as `encoding/json` reads it. -/
inductive Json
  | null
  | bool (b : Bool)
  | number (literal : String)
  | string (s : String)
  | array (elems : List Json)
  | object (members : List (String × Json))

/-- The body of an HTTP reply: bytes that are not a JSON text (with the syntax
error that `encoding/json` reports), or the JSON value they spell. -/
inductive Body
  | malformed (err : String)
  | json (v : Json)

/-- The outcome of `http.Get` followed by `ioutil.ReadAll` on the body. -/
inductive HttpOutcome
  | getError (err : String)
  | readError (err : String)
  | body (b : Body)

/-- The outcome of one `ConnectToNode`: of `ethclient.Dial` and, when the dial
succeeds, of `client.NetworkID`. -/
inductive ConnectOutcome
  | dialError (err : String)
  | networkIDError (c : Client) (err : String)
  | connected (c : Client) (id : Nat)
deriving DecidableEq, Repr

/-- Everything the outside answers during one probe request. -/
structure World where
  /-- The call `client.NetworkID` inside `IsConnected`. -/
  ping : Except String Nat
  /-- The `i`-th `ConnectToNode` of `TryToConnect`, counted from 0. -/
  connects : Nat → ConnectOutcome
  /-- The call `client.SyncProgress` on a non-nil client: an error, `nil` (not syncing) or a progress. -/
  syncProgress : Except String (Option SyncProgress)
  /-- The call `client.BlockByNumber(ctx, nil)` on a non-nil client: an error, or the number of the latest block. -/
  blockByNumber : Except String Int
  /-- The call `http.Get` on a URL. -/
  httpGet : String → HttpOutcome

/-- What a handler leaves behind: the status line and body it wrote, or a panic
that unwound it before it wrote anything. -/
inductive Outcome
  | response (status : Nat) (body : String)
  | panic (p : Panic)
deriving DecidableEq, Repr

/-! ## Connection manager -/

/-- The function `ConnectToNode`. -/
def ConnectToNode (o : ConnectOutcome) (m : Machine) : Bool × Machine :=
  let m := m.emit (.dial m.config.NodeUrl)
  match o with
  | .dialError err => (false, m.emit (.logError err))
  | .networkIDError _client err =>
    let m := { m with client := some _client }
    (false, m.emit (.logError err))
  | .connected _client id =>
    let m := { m with client := some _client }
    (true, { m with netId := id % 2 ^ 64 })

/-- The function `IsConnected`. -/
def IsConnected (ping : Except String Nat) (m : Machine) : Bool × Machine :=
  match m.client with
  | none => (false, m)
  | some _ =>
    match ping with
    | .error err => (false, m.emit (.logError err))
    | .ok _ => (true, m)

/-- The loop of `TryToConnect`; the first argument is `5 - i`, the number of
iterations left. -/
def TryToConnect.loop (outs : Nat → ConnectOutcome) : Nat → Nat → Machine → Machine
  | 0, _, m => m.emit (.logText "WARN: Cannot connect to node")
  | left + 1, i, m =>
    let (isRun, m) := ConnectToNode (outs i) m
    if isRun then m
    else TryToConnect.loop outs left (i + 1) (m.emit (.sleep 2))

/-- The function `TryToConnect`. -/
def TryToConnect (outs : Nat → ConnectOutcome) (m : Machine) : Machine :=
  TryToConnect.loop outs 5 0 m

/-- The opening of both handlers: `if !IsConnected() { TryToConnect() }`. -/
def ensureConnected (w : World) (m : Machine) : Machine :=
  let (ok, m) := IsConnected w.ping m
  if !ok then TryToConnect w.connects m else m

/-- The call `client.SyncProgress(ctx)` on the package-level client: every method
of `ethclient.Client` reads the receiver's RPC handle first, which panics on a nil
receiver. -/
def clientSyncProgress (w : World) (m : Machine) : Result (Except String (Option SyncProgress)) :=
  match m.client with
  | none => .panic .nilDereference
  | some _ => .value w.syncProgress

/-- The call `client.BlockByNumber(ctx, nil)` followed by `block.Number()`. -/
def clientBlockByNumber (w : World) (m : Machine) : Result (Except String Int) :=
  match m.client with
  | none => .panic .nilDereference
  | some _ => .value w.blockByNumber

/-! ## Reference height -/

/-- The name `encoding/json` gives the kind of a value in a type error. -/
def Json.kind : Json → String
  | .null => "null"
  | .bool _ => "bool"
  | .number _ => "number"
  | .string _ => "string"
  | .array _ => "array"
  | .object _ => "object"

/-- A `map[string]*json.RawMessage`, newest assignment first; the nil map is the
empty list.  A `*json.RawMessage` is `none` when nil, else the value it spells. -/
abbrev ObjMap := List (String × Option Json)

/-- The element that `encoding/json` stores for a member of an object when the
target is `*json.RawMessage`: the literal `null` leaves the pointer nil, any other
value is kept raw behind a fresh pointer. -/
def rawMessagePtr : Json → Option Json
  | .null => none
  | v => some v

/-- The call `json.Unmarshal(body, &objmap)` on the nil map `objmap`: a syntax
error for a malformed body; `null` leaves the map nil; an object assigns its
members in order (a repeated key overwrites); any other value is a type error. -/
def unmarshalObjMap : Body → Except String ObjMap
  | .malformed err => .error err
  | .json .null => .ok []
  | .json (.object members) =>
    .ok (members.foldl (fun objmap kv => (kv.1, rawMessagePtr kv.2) :: objmap) [])
  | .json v =>
    .error ("json: cannot unmarshal " ++ v.kind ++ " into Go value of type map[string]*json.RawMessage")

/-- The map index `objmap[key]`: the nil pointer for an absent key. -/
def ObjMap.index (objmap : ObjMap) (key : String) : Option Json :=
  (objmap.lookup key).join

/-- The call `json.Unmarshal(raw, &str)` on the empty string `str`: a JSON string
is stored, `null` leaves `str` as it is, any other value is a type error. -/
def unmarshalString : Json → Except String String
  | .string s => .ok s
  | .null => .ok ""
  | v => .error ("json: cannot unmarshal " ++ v.kind ++ " into Go value of type string")

/-- The bytes of a Go string (its UTF-8 encoding). -/
def goBytes (s : String) : List UInt8 :=
  s.data.flatMap String.utf8EncodeChar

/-- The digit value `math/big` gives a byte when the base is at most 36: letters of
either case count from 10, and a byte that is no letter or digit gets
`MaxBase + 1 = 63`. -/
def digitVal (ch : UInt8) : Nat :=
  let c := ch.toNat
  if 48 ≤ c ∧ c ≤ 57 then c - 48
  else if 97 ≤ c ∧ c ≤ 122 then c - 97 + 10
  else if 65 ≤ c ∧ c ≤ 90 then c - 65 + 10
  else 63

/-- The digit loop of `nat.scan` for a base other than 0 and no fraction: reads
digits below the base, stops before the first other byte (which is unread), and
returns the value, the number of digits and the unread rest. -/
def natScan (base : Nat) : List UInt8 → Nat → Nat → Nat × Nat × List UInt8
  | [], acc, count => (acc, count, [])
  | ch :: rest, acc, count =>
    if base ≤ digitVal ch then (acc, count, ch :: rest)
    else natScan base rest (acc * base + digitVal ch) (count + 1)

/-- The helper `scanSign` of `math/big`: `none` at the end of input, else whether a
`-` was read, and the rest (a `+` is read too, any other byte is unread). -/
def scanSign : List UInt8 → Option (Bool × List UInt8)
  | [] => none
  | ch :: rest =>
    if ch = 45 then some (true, rest)
    else if ch = 43 then some (false, rest)
    else some (false, ch :: rest)

/-- The call `z.SetString(s, base)` as `math/big` implements it, for a base between
2 and 36: the value the receiver holds afterwards, and the success flag.  The
receiver is assigned as soon as the digits are scanned, before the check that the
input is used up; without a digit its magnitude is set to zero; at the end of input
before any byte it is left alone. -/
def SetString (z : Int) (s : List UInt8) (base : Nat) : Int × Bool :=
  match scanSign s with
  | none => (z, false)
  | some (neg, r) =>
    match natScan base r 0 0 with
    | (abs, count, rest) =>
      if count = 0 then (0, false)
      else ((if neg then -(abs : Int) else (abs : Int)), rest.isEmpty)

/-- The function `LoadBlockNumberEtherscan`. -/
def LoadBlockNumberEtherscan (w : World) (netId : Nat) (m : Machine) : Result Int × Machine :=
  let request := EtherscanAPIURL (EtherscanNetworks netId) m.config.ApiKey
  let m := m.emit (.httpGet request)
  match w.httpGet request with
  | .getError err => (.value 0, m.emit (.logError err))
  | .readError err => (.value 0, m.emit (.logError err))
  | .body body =>
    match unmarshalObjMap body with
    | .error err => (.value 0, m.emit (.logError err))
    | .ok objmap =>
      match objmap.index "result" with
      | none => (.panic .nilDereference, m)
      | some raw =>
        match unmarshalString raw with
        | .error err => (.value 0, m.emit (.logError err))
        | .ok str =>
          if (goBytes str).length < 2 then (.panic .sliceBounds, m)
          else
            let block := (SetString 0 ((goBytes str).drop 2) 16).1
            (.value block, m)

/-! ## Probe handlers -/

/-- The function `CheckReadNode`. -/
def CheckReadNode (w : World) (m : Machine) : Outcome × Machine :=
  let m := ensureConnected w m
  match clientSyncProgress w m with
  | .panic p => (.panic p, m)
  | .value (.error err) =>
    (.response StatusServiceUnavailable err, m.emit (.logError err))
  | .value (.ok sync) =>
    match sync with
    | some sync =>
      (.response StatusServiceUnavailable "",
        m.emit (.logText ("Ethereum node is syncing now, current block: " ++ toString sync.CurrentBlock
          ++ " | highest block: " ++ toString sync.HighestBlock)))
    | none =>
      match clientBlockByNumber w m with
      | .panic p => (.panic p, m)
      | .value (.error err) =>
        (.response StatusServiceUnavailable err, m.emit (.logError err))
      | .value (.ok number) =>
        match LoadBlockNumberEtherscan w m.netId m with
        | (.panic p, m) => (.panic p, m)
        | (.value ethscanBlock, m) =>
          let ethscanBlock := ethscanBlock - 5
          if number < ethscanBlock then
            (.response StatusServiceUnavailable "",
              m.emit (.logText ("Node is not valid, block " ++ toString number
                ++ " but on Etherscan is " ++ toString ethscanBlock)))
          else (.response StatusOK "", m)

/-- The function `CheckLiveNode`. -/
def CheckLiveNode (w : World) (m : Machine) : Outcome × Machine :=
  let m := ensureConnected w m
  match clientSyncProgress w m with
  | .panic p => (.panic p, m)
  | .value (.error err) =>
    (.response StatusServiceUnavailable err, m.emit (.logError err))
  | .value (.ok sync) =>
    match clientBlockByNumber w m with
    | .panic p => (.panic p, m)
    | .value (.error err) =>
      (.response StatusServiceUnavailable err, m.emit (.logError err))
    | .value (.ok number) =>
      match LoadBlockNumberEtherscan w m.netId m with
      | (.panic p, m) => (.panic p, m)
      | (.value ethscanBlock, m) =>
        let ethscanBlock := ethscanBlock - 50
        if sync = none ∧ number < ethscanBlock then
          (.response StatusServiceUnavailable "",
            m.emit (.logText "Ethereum node is not actual but not syncing"))
        else (.response StatusOK "", m)

/-! ## The specification's verdicts -/

/-- The verdict of a check in the words of the specification: OK, FAIL because a
query to the node failed (carrying the error's message), or FAIL by policy (the
node is syncing, or behind the threshold). -/
inductive Verdict
  | ok
  | failQuery (msg : String)
  | failPolicy
deriving DecidableEq, Repr

/-- The specification's ReadinessCheck, steps 2 to 7, on the outcomes of the two
node queries and the reference height. -/
def specReadinessCheck (sync : Except String (Option SyncProgress))
    (block : Except String Int) (reference : Int) : Verdict :=
  match sync with
  | .error msg => .failQuery msg
  | .ok (some _) => .failPolicy
  | .ok none =>
    match block with
    | .error msg => .failQuery msg
    | .ok height => if height < reference - 5 then .failPolicy else .ok

/-- The specification's LivenessCheck, steps 2 to 7. -/
def specLivenessCheck (sync : Except String (Option SyncProgress))
    (block : Except String Int) (reference : Int) : Verdict :=
  match sync with
  | .error msg => .failQuery msg
  | .ok progress =>
    match block with
    | .error msg => .failQuery msg
    | .ok height =>
      if progress = none ∧ height < reference - 50 then .failPolicy else .ok

/-- The specification's probe response: 200 for OK, 503 otherwise, with the error
text as body for a failed query and an empty body for a policy failure. -/
def specProbeResponse : Verdict → Outcome
  | .ok => .response 200 ""
  | .failQuery msg => .response 503 msg
  | .failPolicy => .response 503 ""

/-! ## Scenarios -/

def scenarioConfig : Config :=
  { NodeUrl := "http://node:8545", ApiKey := "KEY", AppPort := "8080", BlockLag := 0 }

/-- A process whose client was recorded by an earlier connect, on network 1. -/
def connectedMachine : Machine :=
  { client := some { id := 0 }, config := scenarioConfig, netId := 1, trace := [] }

/-- A process in which no client handle was ever recorded. -/
def freshMachine : Machine :=
  { client := none, config := scenarioConfig, netId := 0, trace := [] }

/-- The explorer's reply with the given `result` string. -/
def explorerReply (result : String) : HttpOutcome :=
  .body (.json (.object [("jsonrpc", .string "2.0"), ("id", .number "83"), ("result", .string result)]))

/-- A reachable node that reports the given sync state and latest block number,
and an explorer that answers every request with the given outcome. -/
def scenario (sync : Option SyncProgress) (number : Int) (reply : HttpOutcome) : World :=
  { ping := .ok 1
    connects := fun _ => .connected { id := 1 } 1
    syncProgress := .ok sync
    blockByNumber := .ok number
    httpGet := fun _ => reply }

/-- A node whose endpoint refuses every dial. -/
def unreachable (reply : HttpOutcome) : World :=
  { ping := .error "connection refused"
    connects := fun _ => .dialError "dial tcp: connection refused"
    syncProgress := .error "connection refused"
    blockByNumber := .error "connection refused"
    httpGet := fun _ => reply }

/-! ## The specification's reading of a hexadecimal string -/

/-- Whether a character is a hexadecimal digit: `0`-`9` (48-57), `a`-`f` (97-102)
or `A`-`F` (65-70). -/
def isHexDigit (c : Char) : Bool :=
  (48 ≤ c.toNat ∧ c.toNat ≤ 57) ∨ (97 ≤ c.toNat ∧ c.toNat ≤ 102) ∨ (65 ≤ c.toNat ∧ c.toNat ≤ 70)

/-- The value of a hexadecimal digit. -/
def hexDigit (c : Char) : Nat :=
  if c.toNat ≤ 57 then c.toNat - 48
  else if 97 ≤ c.toNat then c.toNat - 97 + 10
  else c.toNat - 65 + 10

/-- The non-negative integer that a string of hexadecimal digits denotes in base
16, most significant digit first. -/
def hexValue (d : String) : Nat :=
  Nat.ofDigits 16 (d.data.reverse.map hexDigit)

/-! ## Observations on a trace -/

/-- Whether `ConnectToNode` returns true on an outcome: the dial and the network-id
query both succeeded. -/
def ConnectOutcome.success : ConnectOutcome → Bool
  | .connected _ _ => true
  | _ => false

/-- Whether an event is a dial, that is, the start of a `ConnectToNode`. -/
def Event.isDial : Event → Bool
  | .dial _ => true
  | _ => false

/-- The events that a step from `before` to `after` added to the trace. -/
def emitted (before after : Machine) : List Event :=
  after.trace.drop before.trace.length

/-- The number of `ConnectToNode` attempts made between `before` and `after`. -/
def attempts (before after : Machine) : Nat :=
  (emitted before after).countP Event.isDial

/-- The warning that `TryToConnect` logs when it gives up. -/
def cannotConnectWarning : Event :=
  .logText "WARN: Cannot connect to node"

/-! ## The retry loop -/

theorem ConnectToNode_fst (o : ConnectOutcome) (m : Machine) :
    (ConnectToNode o m).1 = o.success := by
  cases o <;> rfl

theorem ConnectToNode_trace (o : ConnectOutcome) (m : Machine) :
    ∃ new, (ConnectToNode o m).2.trace = m.trace ++ new ∧ new.countP Event.isDial = 1 ∧
      cannotConnectWarning ∉ new := by
  cases o with
  | dialError err =>
    exact ⟨[.dial m.config.NodeUrl, .logError err],
      by simp [ConnectToNode, Machine.emit], by simp [Event.isDial],
      by simp [cannotConnectWarning]⟩
  | networkIDError c err =>
    exact ⟨[.dial m.config.NodeUrl, .logError err],
      by simp [ConnectToNode, Machine.emit], by simp [Event.isDial],
      by simp [cannotConnectWarning]⟩
  | connected c id =>
    exact ⟨[.dial m.config.NodeUrl],
      by simp [ConnectToNode, Machine.emit], by simp [Event.isDial],
      by simp [cannotConnectWarning]⟩

theorem loop_all_fail (outs : Nat → ConnectOutcome) (left i : Nat) (m : Machine)
    (hfail : ∀ j, j < left → (outs (i + j)).success = false) :
    ∃ new, (TryToConnect.loop outs left i m).trace = m.trace ++ new ∧
      new.countP Event.isDial = left ∧ cannotConnectWarning ∈ new := by
  induction left generalizing i m with
  | zero =>
    exact ⟨[cannotConnectWarning], by simp [TryToConnect.loop, Machine.emit, cannotConnectWarning],
      by simp [cannotConnectWarning, Event.isDial], by simp⟩
  | succ left ih =>
    have h0 : (ConnectToNode (outs i) m).1 = false := by
      rw [ConnectToNode_fst]; simpa using hfail 0 (Nat.succ_pos left)
    obtain ⟨new1, ht1, hc1, -⟩ := ConnectToNode_trace (outs i) m
    obtain ⟨new2, ht2, hc2, hw2⟩ := ih (i + 1) ((ConnectToNode (outs i) m).2.emit (.sleep 2))
      (fun j hj => by have := hfail (j + 1) (by omega); rwa [show i + 1 + j = i + (j + 1) by omega])
    refine ⟨new1 ++ [.sleep 2] ++ new2, ?_, ?_, ?_⟩
    · rw [TryToConnect.loop]
      simp only [h0, Bool.false_eq_true, if_false]
      rw [ht2]
      simp [Machine.emit, ht1]
    · simp [List.countP_append, hc1, hc2, Event.isDial]
      omega
    · simp [hw2]

theorem loop_first_success (outs : Nat → ConnectOutcome) (left i n : Nat) (m : Machine)
    (hn : n < left) (hfail : ∀ j, j < n → (outs (i + j)).success = false)
    (hsucc : (outs (i + n)).success = true) :
    ∃ new, (TryToConnect.loop outs left i m).trace = m.trace ++ new ∧
      new.countP Event.isDial = n + 1 ∧ cannotConnectWarning ∉ new := by
  induction left generalizing i n m with
  | zero => omega
  | succ left ih =>
    obtain ⟨new1, ht1, hc1, hw1⟩ := ConnectToNode_trace (outs i) m
    cases n with
    | zero =>
      have h0 : (ConnectToNode (outs i) m).1 = true := by
        rw [ConnectToNode_fst]; simpa using hsucc
      refine ⟨new1, ?_, by simpa using hc1, hw1⟩
      rw [TryToConnect.loop]
      simp only [h0, if_true]
      exact ht1
    | succ n =>
      have h0 : (ConnectToNode (outs i) m).1 = false := by
        rw [ConnectToNode_fst]; simpa using hfail 0 (Nat.succ_pos n)
      obtain ⟨new2, ht2, hc2, hw2⟩ := ih (i + 1) n ((ConnectToNode (outs i) m).2.emit (.sleep 2))
        (by omega)
        (fun j hj => by
          have := hfail (j + 1) (by omega); rwa [show i + 1 + j = i + (j + 1) by omega])
        (by rwa [show i + 1 + n = i + (n + 1) by omega])
      refine ⟨new1 ++ [.sleep 2] ++ new2, ?_, ?_, ?_⟩
      · rw [TryToConnect.loop]
        simp only [h0, Bool.false_eq_true, if_false]
        rw [ht2]
        simp [Machine.emit, ht1]
      · simp [List.countP_append, hc1, hc2, Event.isDial]
        omega
      · simp only [List.mem_append, List.mem_singleton, not_or]
        exact ⟨⟨hw1, by simp [cannotConnectWarning]⟩, hw2⟩

theorem emitted_of_trace (before after : Machine) (new : List Event)
    (h : after.trace = before.trace ++ new) : emitted before after = new := by
  simp [emitted, h]

/-- Claim C8: for every sequence `outs` of outcomes of the successive
`ConnectToNode` calls, `TryToConnect` makes exactly `min k 5` attempts when the
first success is the `k`-th outcome, exactly 5 when none of the first five
succeeds, never an attempt after a success (every attempt but the last one made
failed), and logs the cannot-connect warning if and only if all five failed.  An
outcome succeeds exactly when `ConnectToNode` returns true on it
(`ConnectToNode_fst`). -/
theorem TryToConnect_attempts (outs : Nat → ConnectOutcome) (m : Machine) :
    (∀ k, 1 ≤ k → (outs (k - 1)).success = true → (∀ j, j < k - 1 → (outs j).success = false) →
      attempts m (TryToConnect outs m) = min k 5) ∧
    ((∀ j, j < 5 → (outs j).success = false) → attempts m (TryToConnect outs m) = 5) ∧
    (∀ j, j + 1 < attempts m (TryToConnect outs m) → (outs j).success = false) ∧
    (cannotConnectWarning ∈ emitted m (TryToConnect outs m) ↔
      ∀ j, j < 5 → (outs j).success = false) := by
  by_cases hall : ∀ j, j < 5 → (outs j).success = false
  · obtain ⟨new, ht, hc, hw⟩ := loop_all_fail outs 5 0 m (by simpa using hall)
    have he := emitted_of_trace m (TryToConnect outs m) new ht
    have ha : attempts m (TryToConnect outs m) = 5 := by rw [attempts, he, hc]
    refine ⟨?_, fun _ => ha, ?_, ?_⟩
    · intro k hk hs hf
      have : 5 < k := by
        by_contra hle
        have := hall (k - 1) (by omega)
        rw [hs] at this
        exact Bool.noConfusion this
      rw [ha]; omega
    · intro j hj
      exact hall j (by omega)
    · rw [he]
      exact ⟨fun _ => hall, fun _ => hw⟩
  · have hex : ∃ n, n < 5 ∧ (outs n).success = true := by
      by_contra hno
      apply hall
      intro j hj
      by_contra hj'
      exact hno ⟨j, hj, by simpa using hj'⟩
    classical
    have hmin : ∀ j, j < Nat.find hex → ¬ (j < 5 ∧ (outs j).success = true) :=
      fun j hj => Nat.find_min hex hj
    obtain ⟨hn5, hns⟩ := Nat.find_spec hex
    generalize Nat.find hex = n at hmin hn5 hns
    have hfail : ∀ j, j < n → (outs j).success = false := by
      intro j hj
      by_contra hh
      exact hmin j hj ⟨by omega, by simpa using hh⟩
    obtain ⟨new, ht, hc, hw⟩ := loop_first_success outs 5 0 n m hn5
      (by simpa using hfail) (by simpa using hns)
    have he := emitted_of_trace m (TryToConnect outs m) new ht
    have ha : attempts m (TryToConnect outs m) = n + 1 := by rw [attempts, he, hc]
    refine ⟨?_, fun h => absurd h hall, ?_, ?_⟩
    · intro k hk hs hf
      have hkn : k - 1 = n := by
        rcases Nat.lt_trichotomy (k - 1) n with h | h | h
        · have := hfail (k - 1) h; rw [hs] at this; exact Bool.noConfusion this
        · exact h
        · have := hf n h; rw [hns] at this; exact Bool.noConfusion this
      rw [ha]; omega
    · intro j hj
      exact hfail j (by omega)
    · rw [he]
      exact ⟨fun h => absurd h hw, fun h => absurd h hall⟩

/-- Two refused dials, then a node that answers: three attempts and no warning. -/
theorem TryToConnect_attempts_witness :
    attempts freshMachine
      (TryToConnect (fun i => if i < 2 then .dialError "refused" else .connected ⟨7⟩ 1)
        freshMachine) = 3 ∧
    cannotConnectWarning ∉ emitted freshMachine
      (TryToConnect (fun i => if i < 2 then .dialError "refused" else .connected ⟨7⟩ 1)
        freshMachine) :=
  ⟨(TryToConnect_attempts (fun i => if i < 2 then .dialError "refused" else .connected ⟨7⟩ 1)
      freshMachine).1 3 (by decide) rfl (by decide),
   fun h => absurd
     (((TryToConnect_attempts (fun i => if i < 2 then .dialError "refused" else .connected ⟨7⟩ 1)
       freshMachine).2.2.2.1 h) 2 (by decide)) (by decide)⟩

/-! ## Reading the reference height -/

theorem utf8EncodeChar_of_hex (c : Char) (h : isHexDigit c = true) :
    String.utf8EncodeChar c = [c.val.toUInt8] := by
  have h127 : c.toNat ≤ 127 := by
    simp only [isHexDigit, Bool.decide_and, Bool.decide_or,
      Bool.or_eq_true, Bool.and_eq_true, decide_eq_true_eq] at h
    omega
  unfold String.utf8EncodeChar
  have : c.val ≤ 127 := by
    rw [UInt32.le_def]; exact h127
  simp [this]

theorem toNat_toUInt8_of_hex (c : Char) (h : isHexDigit c = true) :
    (c.val.toUInt8).toNat = c.toNat := by
  have h127 : c.toNat ≤ 127 := by
    simp only [isHexDigit, Bool.decide_and, Bool.decide_or,
      Bool.or_eq_true, Bool.and_eq_true, decide_eq_true_eq] at h
    omega
  simp [UInt32.toUInt8, Nat.toUInt8, UInt8.ofNat, UInt8.toNat, Char.toNat, UInt32.toNat] at *
  omega

theorem digitVal_of_hex (c : Char) (h : isHexDigit c = true) :
    digitVal c.val.toUInt8 = hexDigit c ∧ hexDigit c < 16 := by
  have hn := toNat_toUInt8_of_hex c h
  simp only [isHexDigit, Bool.decide_and, Bool.decide_or,
    Bool.or_eq_true, Bool.and_eq_true, decide_eq_true_eq] at h
  unfold digitVal hexDigit
  simp only [hn]
  split_ifs <;> omega

theorem natScan_hex (cs : List Char) (h : ∀ c ∈ cs, isHexDigit c = true) (acc count : Nat) :
    natScan 16 (cs.flatMap String.utf8EncodeChar) acc count =
      (acc * 16 ^ cs.length + Nat.ofDigits 16 (cs.reverse.map hexDigit), count + cs.length, []) := by
  induction cs generalizing acc count with
  | nil => simp [natScan]
  | cons c cs ih =>
    have hc := h c (List.mem_cons_self c cs)
    have hcs : ∀ x ∈ cs, isHexDigit x = true := fun x hx => h x (List.mem_cons_of_mem c hx)
    obtain ⟨hd, hlt⟩ := digitVal_of_hex c hc
    rw [List.flatMap_cons, utf8EncodeChar_of_hex c hc, List.singleton_append, natScan]
    rw [if_neg (by omega), ih hcs, hd]
    simp only [List.reverse_cons, List.map_append, List.map_cons, List.map_nil,
      Nat.ofDigits_append, Nat.ofDigits_singleton, List.length_map, List.length_reverse,
      List.length_cons, Prod.mk.injEq, and_true]
    constructor
    · ring
    · omega

theorem scanSign_hex (c : Char) (rest : List UInt8) (h : isHexDigit c = true) :
    scanSign (c.val.toUInt8 :: rest) = some (false, c.val.toUInt8 :: rest) := by
  have hn := toNat_toUInt8_of_hex c h
  simp only [isHexDigit, Bool.decide_and, Bool.decide_or,
    Bool.or_eq_true, Bool.and_eq_true, decide_eq_true_eq] at h
  have h1 : c.val.toUInt8 ≠ 45 := by
    intro he
    have h45 : (45 : UInt8).toNat = 45 := by decide
    rw [he, h45] at hn; omega
  have h2 : c.val.toUInt8 ≠ 43 := by
    intro he
    have h43 : (43 : UInt8).toNat = 43 := by decide
    rw [he, h43] at hn; omega
  simp [scanSign, h1, h2]

theorem SetString_hex (d : String) (hne : d ≠ "") (h : ∀ c ∈ d.data, isHexDigit c = true) :
    SetString 0 (goBytes d) 16 = ((hexValue d : Int), true) := by
  obtain ⟨cs⟩ := d
  cases cs with
  | nil => exact absurd rfl hne
  | cons c cs =>
    have hc := h c (List.mem_cons_self c cs)
    have hscan := natScan_hex (c :: cs) h 0 0
    simp only [goBytes] at hscan ⊢
    rw [List.flatMap_cons, utf8EncodeChar_of_hex c hc, List.singleton_append] at hscan ⊢
    simp only [SetString, scanSign_hex c _ hc, hscan, hexValue]
    simp

theorem foldl_cons_eq_reverse {α β : Type} (g : α → β) (l : List α) (acc : List β) :
    l.foldl (fun t a => g a :: t) acc = (l.map g).reverse ++ acc := by
  induction l generalizing acc with
  | nil => rfl
  | cons a l ih => simp [List.foldl_cons, ih]

theorem lookup_of_all {β : Type} (k : String) (v : β) (l : List (String × β))
    (hex : ∃ kv ∈ l, kv.1 = k) (hall : ∀ kv ∈ l, kv.1 = k → kv.2 = v) :
    l.lookup k = some v := by
  induction l with
  | nil => simp at hex
  | cons kv l ih =>
    obtain ⟨k', v'⟩ := kv
    by_cases hk : k' = k
    · subst hk
      have := hall (k', v') (List.mem_cons_self _ _) rfl
      simp only at this
      simp [List.lookup_cons, this]
    · have hne : (k == k') = false := by simpa using fun h => hk h.symm
      rw [List.lookup_cons, hne]
      apply ih
      · obtain ⟨kv, hkv, hk1⟩ := hex
        rcases List.mem_cons.1 hkv with rfl | hin
        · exact absurd hk1 hk
        · exact ⟨kv, hin, hk1⟩
      · exact fun kv hkv => hall kv (List.mem_cons_of_mem _ hkv)

theorem index_result_of_members (members : List (String × Json)) (s : String)
    (hmem : ("result", Json.string s) ∈ members)
    (hall : ∀ kv ∈ members, kv.1 = "result" → kv.2 = Json.string s) :
    unmarshalObjMap (.json (.object members)) = .ok
      (members.map (fun kv => (kv.1, rawMessagePtr kv.2))).reverse ∧
    ObjMap.index (members.map (fun kv => (kv.1, rawMessagePtr kv.2))).reverse "result"
      = some (Json.string s) := by
  constructor
  · simp [unmarshalObjMap, foldl_cons_eq_reverse (fun kv : String × Json => (kv.1, rawMessagePtr kv.2))]
  · unfold ObjMap.index
    rw [lookup_of_all "result" (some (Json.string s))]
    · rfl
    · exact ⟨("result", rawMessagePtr (Json.string s)),
        List.mem_reverse.2 (List.mem_map.2 ⟨_, hmem, rfl⟩), rfl⟩
    · intro kv hkv hk
      obtain ⟨kv0, hkv0, rfl⟩ := List.mem_map.1 (List.mem_reverse.1 hkv)
      simp only at hk ⊢
      rw [hall kv0 hkv0 hk]
      rfl

theorem goBytes_0x (d : String) :
    (goBytes ("0x" ++ d)).length ≥ 2 ∧ (goBytes ("0x" ++ d)).drop 2 = goBytes d := by
  have : goBytes ("0x" ++ d) = 48 :: 120 :: goBytes d := by
    simp only [goBytes, String.data_append, List.flatMap_append]
    rfl
  rw [this]
  simp

theorem LoadBlockNumberEtherscan_explorerReply (w : World) (netId : Nat) (m : Machine)
    (s : String)
    (hget : w.httpGet (EtherscanAPIURL (EtherscanNetworks netId) m.config.ApiKey)
      = explorerReply s) :
    (LoadBlockNumberEtherscan w netId m).1 =
      if (goBytes s).length < 2 then .panic .sliceBounds
      else .value (SetString 0 ((goBytes s).drop 2) 16).1 := by
  obtain ⟨hmap, hidx⟩ := index_result_of_members
    [("jsonrpc", .string "2.0"), ("id", .number "83"), ("result", .string s)] s
    (by simp) (by simp)
  simp only [LoadBlockNumberEtherscan, Machine.emit, hget, explorerReply, hmap, hidx,
    unmarshalString]
  split <;> rfl

/-- Claim C6: when the GET succeeds with a JSON object whose `result` member is the
string `0x` followed by a non-empty string `d` of hexadecimal digits (every member
named `result` having that value), `LoadBlockNumberEtherscan` returns exactly the
non-negative integer that `d` denotes in base 16, whatever its size. -/
theorem LoadBlockNumberEtherscan_hex (w : World) (netId : Nat) (m : Machine)
    (members : List (String × Json)) (d : String)
    (hget : w.httpGet (EtherscanAPIURL (EtherscanNetworks netId) m.config.ApiKey)
      = .body (.json (.object members)))
    (hmem : ("result", Json.string ("0x" ++ d)) ∈ members)
    (hall : ∀ kv ∈ members, kv.1 = "result" → kv.2 = Json.string ("0x" ++ d))
    (hne : d ≠ "") (hhex : ∀ c ∈ d.data, isHexDigit c = true) :
    (LoadBlockNumberEtherscan w netId m).1 = .value (hexValue d : Int) := by
  obtain ⟨hmap, hidx⟩ := index_result_of_members members ("0x" ++ d) hmem hall
  obtain ⟨hlen, hdrop⟩ := goBytes_0x d
  simp only [LoadBlockNumberEtherscan, Machine.emit, hget, hmap, hidx, unmarshalString]
  rw [if_neg (by omega), hdrop, SetString_hex d hne hhex]

/-- A reply of nineteen digits in both letter cases, above `2 ^ 64`. -/
theorem LoadBlockNumberEtherscan_hex_witness :
    (LoadBlockNumberEtherscan (scenario none 0 (explorerReply "0x1fFffFFffffFFFFffff")) 1
      connectedMachine).1 = .value (2 ^ 73 - 1) := by
  have h := LoadBlockNumberEtherscan_hex (scenario none 0 (explorerReply "0x1fFffFFffffFFFFffff")) 1
    connectedMachine
    [("jsonrpc", .string "2.0"), ("id", .number "83"), ("result", .string "0x1fFffFFffffFFFFffff")]
    "1fFffFFffffFFFFffff" rfl (by simp) (by simp) (by decide) (by decide)
  rw [h]
  decide


/-- Claim C3, evaluated on the code: for every network id, a failed GET, a failed
body read and a body that is not JSON give the height 0, but a JSON body without a
`result` member (the object `{}`, a `result` of `null`, a top-level `null`) ends in
a nil-dereference panic at `*objmap["result"]` and no height is returned. -/
theorem LoadBlockNumberEtherscan_missing_result (w : World) (netId : Nat) (m : Machine) :
    (∀ err, (LoadBlockNumberEtherscan { w with httpGet := fun _ => .getError err } netId m).1
      = .value 0) ∧
    (∀ err, (LoadBlockNumberEtherscan { w with httpGet := fun _ => .readError err } netId m).1
      = .value 0) ∧
    (∀ err, (LoadBlockNumberEtherscan
      { w with httpGet := fun _ => .body (.malformed err) } netId m).1 = .value 0) ∧
    (LoadBlockNumberEtherscan
      { w with httpGet := fun _ => .body (.json (.object [])) } netId m).1
      = .panic .nilDereference ∧
    (LoadBlockNumberEtherscan
      { w with httpGet := fun _ => .body (.json (.object [("result", .null)])) } netId m).1
      = .panic .nilDereference ∧
    (LoadBlockNumberEtherscan { w with httpGet := fun _ => .body (.json .null) } netId m).1
      = .panic .nilDereference :=
  ⟨fun _ => rfl, fun _ => rfl, fun _ => rfl, rfl, rfl, rfl⟩

/-- Claim C7, evaluated on the code: for a `result` string that is not `0x` and
hexadecimal digits, the function returns 0 only when no digit follows the first two
bytes (`0x`, `0xzz`, `Invalid API Key`).  A string shorter than two bytes (the empty
string, `0`) ends in a slice-bounds panic at `str[2:]`; any two leading bytes are
dropped unchecked (`ab1f` gives 31); a sign is accepted (`0x-1f` gives -31); and
digits before a stray character stay in the result (`0x12zz` gives 18). -/
theorem LoadBlockNumberEtherscan_parse_error (w : World) (netId : Nat) (m : Machine) :
    (LoadBlockNumberEtherscan { w with httpGet := fun _ => explorerReply "" } netId m).1
      = .panic .sliceBounds ∧
    (LoadBlockNumberEtherscan { w with httpGet := fun _ => explorerReply "0" } netId m).1
      = .panic .sliceBounds ∧
    (LoadBlockNumberEtherscan { w with httpGet := fun _ => explorerReply "ab1f" } netId m).1
      = .value 31 ∧
    (LoadBlockNumberEtherscan { w with httpGet := fun _ => explorerReply "0x-1f" } netId m).1
      = .value (-31) ∧
    (LoadBlockNumberEtherscan { w with httpGet := fun _ => explorerReply "0x12zz" } netId m).1
      = .value 18 ∧
    (LoadBlockNumberEtherscan { w with httpGet := fun _ => explorerReply "0x" } netId m).1
      = .value 0 ∧
    (LoadBlockNumberEtherscan { w with httpGet := fun _ => explorerReply "0xzz" } netId m).1
      = .value 0 ∧
    (LoadBlockNumberEtherscan
      { w with httpGet := fun _ => explorerReply "Invalid API Key" } netId m).1 = .value 0 :=
  ⟨by rw [LoadBlockNumberEtherscan_explorerReply _ _ _ "" rfl]; decide,
   by rw [LoadBlockNumberEtherscan_explorerReply _ _ _ "0" rfl]; decide,
   by rw [LoadBlockNumberEtherscan_explorerReply _ _ _ "ab1f" rfl]; decide,
   by rw [LoadBlockNumberEtherscan_explorerReply _ _ _ "0x-1f" rfl]; decide,
   by rw [LoadBlockNumberEtherscan_explorerReply _ _ _ "0x12zz" rfl]; decide,
   by rw [LoadBlockNumberEtherscan_explorerReply _ _ _ "0x" rfl]; decide,
   by rw [LoadBlockNumberEtherscan_explorerReply _ _ _ "0xzz" rfl]; decide,
   by rw [LoadBlockNumberEtherscan_explorerReply _ _ _ "Invalid API Key" rfl]; decide⟩

/-! ## Handler outcomes -/

theorem CheckReadNode_of_queries (w : World) (m : Machine) (sync : Option SyncProgress)
    (H R : Int)
    (hsync : clientSyncProgress w (ensureConnected w m) = .value (.ok sync))
    (hblock : clientBlockByNumber w (ensureConnected w m) = .value (.ok H))
    (href : (LoadBlockNumberEtherscan w (ensureConnected w m).netId (ensureConnected w m)).1
      = .value R) :
    (CheckReadNode w m).1 =
      if sync ≠ none ∨ H < R - 5 then .response StatusServiceUnavailable ""
      else .response StatusOK "" := by
  generalize hL : LoadBlockNumberEtherscan w (ensureConnected w m).netId (ensureConnected w m) = L
    at href
  obtain ⟨r, m'⟩ := L
  simp only at href
  subst href
  cases sync with
  | some s => simp [CheckReadNode, hsync]
  | none => by_cases h : H < R - 5 <;> simp [CheckReadNode, hsync, hblock, hL, h]

theorem CheckLiveNode_of_queries (w : World) (m : Machine) (sync : Option SyncProgress)
    (H R : Int)
    (hsync : clientSyncProgress w (ensureConnected w m) = .value (.ok sync))
    (hblock : clientBlockByNumber w (ensureConnected w m) = .value (.ok H))
    (href : (LoadBlockNumberEtherscan w (ensureConnected w m).netId (ensureConnected w m)).1
      = .value R) :
    (CheckLiveNode w m).1 =
      if sync = none ∧ H < R - 50 then .response StatusServiceUnavailable ""
      else .response StatusOK "" := by
  generalize hL : LoadBlockNumberEtherscan w (ensureConnected w m).netId (ensureConnected w m) = L
    at href
  obtain ⟨r, m'⟩ := L
  simp only at href
  subst href
  by_cases h : sync = none ∧ H < R - 50 <;> simp [CheckLiveNode, hsync, hblock, hL, h]

/-- Claim C1: when the sync-progress query and the latest-block query both succeed
and the reference height is `R`, `CheckReadNode` answers 503 (FAIL) if and only if
the node reports syncing or `H < R - 5`, the subtraction taken in the signed
integers, and answers 200 (OK) otherwise.  It holds for all signed `H` and `R`, so
in particular for all `H ≥ 0` and `R ≥ 0`. -/
theorem CheckReadNode_fail_iff (w : World) (m : Machine) (sync : Option SyncProgress) (H R : Int)
    (hsync : clientSyncProgress w (ensureConnected w m) = .value (.ok sync))
    (hblock : clientBlockByNumber w (ensureConnected w m) = .value (.ok H))
    (href : (LoadBlockNumberEtherscan w (ensureConnected w m).netId (ensureConnected w m)).1
      = .value R) :
    ((CheckReadNode w m).1 = .response StatusServiceUnavailable "" ↔ (sync ≠ none ∨ H < R - 5)) ∧
    ((CheckReadNode w m).1 = .response StatusOK "" ↔ ¬ (sync ≠ none ∨ H < R - 5)) := by
  rw [CheckReadNode_of_queries w m sync H R hsync hblock href]
  by_cases h : sync ≠ none ∨ H < R - 5 <;> simp [h, StatusOK, StatusServiceUnavailable]

/-- Scenarios 1 to 4 for readiness against a reference of 1000 (`0x3e8`): height
1000 is OK, heights 990 and 940 FAIL, a node syncing at 500/1000 FAILs. -/
theorem CheckReadNode_fail_iff_witness :
    (CheckReadNode (scenario none 1000 (explorerReply "0x3e8")) connectedMachine).1
      = .response StatusOK "" ∧
    (CheckReadNode (scenario none 990 (explorerReply "0x3e8")) connectedMachine).1
      = .response StatusServiceUnavailable "" ∧
    (CheckReadNode (scenario none 940 (explorerReply "0x3e8")) connectedMachine).1
      = .response StatusServiceUnavailable "" ∧
    (CheckReadNode (scenario (some ⟨500, 1000⟩) 500 (explorerReply "0x3e8")) connectedMachine).1
      = .response StatusServiceUnavailable "" :=
  ⟨(CheckReadNode_fail_iff (scenario none 1000 (explorerReply "0x3e8")) connectedMachine
      none 1000 1000 rfl rfl (by decide)).2.2 (by decide),
   (CheckReadNode_fail_iff (scenario none 990 (explorerReply "0x3e8")) connectedMachine
      none 990 1000 rfl rfl (by decide)).1.2 (by decide),
   (CheckReadNode_fail_iff (scenario none 940 (explorerReply "0x3e8")) connectedMachine
      none 940 1000 rfl rfl (by decide)).1.2 (by decide),
   (CheckReadNode_fail_iff (scenario (some ⟨500, 1000⟩) 500 (explorerReply "0x3e8"))
      connectedMachine (some ⟨500, 1000⟩) 500 1000 rfl rfl (by decide)).1.2 (by decide)⟩

/-- Claim C2: when the sync-progress query and the latest-block query both succeed
and the reference height is `R`, `CheckLiveNode` answers 503 (FAIL) if and only if
the node reports not syncing and `H < R - 50` (signed subtraction), and answers 200
(OK) otherwise; a syncing node gets 200 whatever `H` and `R` are.  It holds for all
signed `H` and `R`, so in particular for all `H ≥ 0` and `R ≥ 0`. -/
theorem CheckLiveNode_fail_iff (w : World) (m : Machine) (sync : Option SyncProgress) (H R : Int)
    (hsync : clientSyncProgress w (ensureConnected w m) = .value (.ok sync))
    (hblock : clientBlockByNumber w (ensureConnected w m) = .value (.ok H))
    (href : (LoadBlockNumberEtherscan w (ensureConnected w m).netId (ensureConnected w m)).1
      = .value R) :
    ((CheckLiveNode w m).1 = .response StatusServiceUnavailable "" ↔ (sync = none ∧ H < R - 50)) ∧
    ((CheckLiveNode w m).1 = .response StatusOK "" ↔ ¬ (sync = none ∧ H < R - 50)) ∧
    (sync ≠ none → (CheckLiveNode w m).1 = .response StatusOK "") := by
  rw [CheckLiveNode_of_queries w m sync H R hsync hblock href]
  by_cases h : sync = none ∧ H < R - 50 <;> simp [h, StatusOK, StatusServiceUnavailable]

/-- Scenarios 2 to 4 for liveness against a reference of 1000 (`0x3e8`): height 990
is OK, height 940 FAILs, a node syncing at 500/1000 is OK. -/
theorem CheckLiveNode_fail_iff_witness :
    (CheckLiveNode (scenario none 990 (explorerReply "0x3e8")) connectedMachine).1
      = .response StatusOK "" ∧
    (CheckLiveNode (scenario none 940 (explorerReply "0x3e8")) connectedMachine).1
      = .response StatusServiceUnavailable "" ∧
    (CheckLiveNode (scenario (some ⟨500, 1000⟩) 500 (explorerReply "0x3e8")) connectedMachine).1
      = .response StatusOK "" :=
  ⟨(CheckLiveNode_fail_iff (scenario none 990 (explorerReply "0x3e8")) connectedMachine
      none 990 1000 rfl rfl (by decide)).2.1.2 (by decide),
   (CheckLiveNode_fail_iff (scenario none 940 (explorerReply "0x3e8")) connectedMachine
      none 940 1000 rfl rfl (by decide)).1.2 (by decide),
   (CheckLiveNode_fail_iff (scenario (some ⟨500, 1000⟩) 500 (explorerReply "0x3e8"))
      connectedMachine (some ⟨500, 1000⟩) 500 1000 rfl rfl (by decide)).2.2 (by decide)⟩

/-- Claim C4: when the reference fetch yields the height 0 (its answer to every
failure it handles), a node that is not syncing and reports any height `H ≥ 0`
gets 200 (OK) from `CheckReadNode`, which compares `H` against `0 - 5`, and from
`CheckLiveNode`, which compares it against `0 - 50`. -/
theorem fail_open_on_reference_outage (w : World) (m : Machine) (H : Int) (hH : 0 ≤ H)
    (hsync : clientSyncProgress w (ensureConnected w m) = .value (.ok none))
    (hblock : clientBlockByNumber w (ensureConnected w m) = .value (.ok H))
    (href : (LoadBlockNumberEtherscan w (ensureConnected w m).netId (ensureConnected w m)).1
      = .value 0) :
    (CheckReadNode w m).1 = .response StatusOK "" ∧
    (CheckLiveNode w m).1 = .response StatusOK "" := by
  rw [CheckReadNode_of_queries w m none H 0 hsync hblock href,
    CheckLiveNode_of_queries w m none H 0 hsync hblock href]
  have h5 : ¬ (none ≠ (none : Option SyncProgress) ∨ H < 0 - 5) := by
    rintro (h | h)
    · exact h rfl
    · omega
  have h50 : ¬ ((none : Option SyncProgress) = none ∧ H < 0 - 50) := by
    rintro ⟨-, h⟩
    omega
  rw [if_neg h5, if_neg h50]
  exact ⟨rfl, rfl⟩

/-- Scenario 5: the explorer answers with a body that is not JSON, the reference
height is 0, and a node at height 0 passes both checks. -/
theorem fail_open_on_reference_outage_witness :
    (LoadBlockNumberEtherscan
      (scenario none 0 (.body (.malformed "unexpected end of JSON input")))
      1 connectedMachine).1 = .value 0 ∧
    (CheckReadNode
      (scenario none 0 (.body (.malformed "unexpected end of JSON input")))
      connectedMachine).1 = .response StatusOK "" ∧
    (CheckLiveNode
      (scenario none 0 (.body (.malformed "unexpected end of JSON input")))
      connectedMachine).1 = .response StatusOK "" :=
  ⟨rfl, fail_open_on_reference_outage
    (scenario none 0 (.body (.malformed "unexpected end of JSON input")))
    connectedMachine 0 (by decide) rfl rfl rfl⟩

/-- Claim C5, evaluated on the code for every combination of outcomes of the two
node queries (`s` of the sync-progress query, `b` of the latest-block query).
Wherever the reference fetch returns a height `R`, or is not reached (a failed
query; for readiness also a syncing node), the response of `CheckReadNode` and of
`CheckLiveNode` is the specification's probe response to the specification's
verdict: 200 with an empty body for OK, 503 with the error's message for a failed
query, 503 with an empty body for a policy failure.  But where both queries succeed
and the reference fetch panics, the handler is unwound by the panic and writes
neither 200 nor 503. -/
theorem probe_response_every_outcome (w : World) (m : Machine)
    (s : Except String (Option SyncProgress)) (b : Except String Int)
    (hsync : clientSyncProgress w (ensureConnected w m) = .value s)
    (hblock : clientBlockByNumber w (ensureConnected w m) = .value b) :
    (∀ R, ((LoadBlockNumberEtherscan w (ensureConnected w m).netId (ensureConnected w m)).1
          = .value R ∨ ¬ ∃ H, s = .ok none ∧ b = .ok H) →
      (CheckReadNode w m).1 = specProbeResponse (specReadinessCheck s b R)) ∧
    (∀ R, ((LoadBlockNumberEtherscan w (ensureConnected w m).netId (ensureConnected w m)).1
          = .value R ∨ ¬ ∃ sync H, s = .ok sync ∧ b = .ok H) →
      (CheckLiveNode w m).1 = specProbeResponse (specLivenessCheck s b R)) ∧
    (∀ p H, (LoadBlockNumberEtherscan w (ensureConnected w m).netId (ensureConnected w m)).1
          = .panic p → s = .ok none → b = .ok H →
      (CheckReadNode w m).1 = .panic p) ∧
    (∀ p sync H, (LoadBlockNumberEtherscan w (ensureConnected w m).netId (ensureConnected w m)).1
          = .panic p → s = .ok sync → b = .ok H →
      (CheckLiveNode w m).1 = .panic p) := by
  generalize hL :
    LoadBlockNumberEtherscan w (ensureConnected w m).netId (ensureConnected w m) = L
  obtain ⟨r, m'⟩ := L
  simp only
  rcases s with e | sync
  · simp [CheckReadNode, CheckLiveNode, hsync, specReadinessCheck, specLivenessCheck,
      specProbeResponse, StatusServiceUnavailable]
  · rcases b with e | H
    · cases sync <;>
        simp [CheckReadNode, CheckLiveNode, hsync, hblock, specReadinessCheck,
          specLivenessCheck, specProbeResponse, StatusServiceUnavailable]
    · cases r with
      | panic q =>
        cases sync <;>
          simp [CheckReadNode, CheckLiveNode, hsync, hblock, hL, specReadinessCheck,
            specLivenessCheck, specProbeResponse, StatusServiceUnavailable]
      | value R0 =>
        cases sync with
        | some p =>
          simp [CheckReadNode, CheckLiveNode, hsync, hblock, hL, specReadinessCheck,
            specLivenessCheck, specProbeResponse, StatusServiceUnavailable, StatusOK]
        | none =>
          by_cases h5 : H < R0 - 5 <;> by_cases h50 : H < R0 - 50 <;>
            simp [CheckReadNode, CheckLiveNode, hsync, hblock, hL, specReadinessCheck,
              specLivenessCheck, specProbeResponse, StatusServiceUnavailable, StatusOK, h5, h50]

/-- A connected node that is not syncing, at height 1000, while the explorer
answers with the JSON object without members: both handlers are unwound by the
panic of the reference fetch.  With a failing sync-progress query on the same
explorer reply both answer 503 with the error's text. -/
theorem probe_response_every_outcome_witness :
    (CheckReadNode (scenario none 1000 (.body (.json (.object [])))) connectedMachine).1
      = .panic .nilDereference ∧
    (CheckLiveNode (scenario none 1000 (.body (.json (.object [])))) connectedMachine).1
      = .panic .nilDereference ∧
    (CheckReadNode { scenario none 1000 (.body (.json (.object []))) with
        syncProgress := .error "boom" } connectedMachine).1 = .response 503 "boom" ∧
    (CheckLiveNode { scenario none 1000 (.body (.json (.object []))) with
        syncProgress := .error "boom" } connectedMachine).1 = .response 503 "boom" :=
  ⟨(probe_response_every_outcome (scenario none 1000 (.body (.json (.object []))))
      connectedMachine (.ok none) (.ok 1000) rfl rfl).2.2.1 .nilDereference 1000 rfl rfl rfl,
   (probe_response_every_outcome (scenario none 1000 (.body (.json (.object []))))
      connectedMachine (.ok none) (.ok 1000) rfl rfl).2.2.2 .nilDereference none 1000
      rfl rfl rfl,
   (probe_response_every_outcome { scenario none 1000 (.body (.json (.object []))) with
      syncProgress := .error "boom" } connectedMachine (.error "boom") (.ok 1000)
      rfl rfl).1 0 (Or.inr (fun h => by obtain ⟨H, h1, -⟩ := h; cases h1)),
   (probe_response_every_outcome { scenario none 1000 (.body (.json (.object []))) with
      syncProgress := .error "boom" } connectedMachine (.error "boom") (.ok 1000)
      rfl rfl).2.1 0 (Or.inr (fun h => by obtain ⟨sync, H, h1, -⟩ := h; cases h1))⟩

/-- Claim C10: liveness is never stricter than readiness.  On the same process
state and the same answers from the outside, a 200 (OK) from `CheckReadNode` implies
a 200 from `CheckLiveNode`, and a 503 (FAIL) from `CheckLiveNode` implies a 503 from
`CheckReadNode`. -/
theorem liveness_not_stricter (w : World) (m : Machine) :
    (∀ body, (CheckReadNode w m).1 = .response StatusOK body →
      (CheckLiveNode w m).1 = .response StatusOK body) ∧
    (∀ body, (CheckLiveNode w m).1 = .response StatusServiceUnavailable body →
      ∃ body', (CheckReadNode w m).1 = .response StatusServiceUnavailable body') := by
  unfold CheckReadNode CheckLiveNode
  simp only
  generalize ensureConnected w m = m'
  rcases hs : clientSyncProgress w m' with ⟨(e | sync)⟩ | p
  · simp [StatusOK, StatusServiceUnavailable]
  · rcases hb : clientBlockByNumber w m' with ⟨(e | H)⟩ | p
    · cases sync <;> simp [StatusOK, StatusServiceUnavailable]
    · rcases hL : LoadBlockNumberEtherscan w m'.netId m' with ⟨(R | p), m''⟩
      · cases sync with
        | some s => simp [StatusOK, StatusServiceUnavailable]
        | none =>
          by_cases h5 : H < R - 5 <;> by_cases h50 : H < R - 50 <;>
            simp [StatusOK, StatusServiceUnavailable, h5, h50]
          omega
      · cases sync <;> simp [StatusOK, StatusServiceUnavailable]
    · cases sync <;> simp [StatusOK, StatusServiceUnavailable]
  · simp

/-- Scenario 1: a node level with the reference is ready, hence live. -/
theorem liveness_not_stricter_witness :
    (CheckReadNode (scenario none 1000 (explorerReply "0x3e8")) connectedMachine).1
      = .response StatusOK "" ∧
    (CheckLiveNode (scenario none 1000 (explorerReply "0x3e8")) connectedMachine).1
      = .response StatusOK "" :=
  ⟨by decide,
   (liveness_not_stricter (scenario none 1000 (explorerReply "0x3e8")) connectedMachine).1 ""
     (by decide)⟩

/-! ## The unset handle -/

theorem loop_dialError_client (outs : Nat → ConnectOutcome) (left i : Nat) (m : Machine)
    (hnil : m.client = none) (hdial : ∀ j, j < left → ∃ err, outs (i + j) = .dialError err) :
    (TryToConnect.loop outs left i m).client = none := by
  induction left generalizing i m with
  | zero => simpa [TryToConnect.loop, Machine.emit] using hnil
  | succ left ih =>
    obtain ⟨err, herr⟩ := hdial 0 (Nat.succ_pos left)
    rw [Nat.add_zero] at herr
    rw [TryToConnect.loop]
    simp only [herr, ConnectToNode, Bool.false_eq_true, if_false]
    apply ih
    · simpa [Machine.emit] using hnil
    · intro j hj
      have := hdial (j + 1) (by omega)
      rwa [show i + 1 + j = i + (j + 1) by omega]

/-- Claim C9, evaluated on the code: from a state with no client handle, when all
five dials of `TryToConnect` fail, the handle stays unset after five attempts, and
`CheckReadNode` and `CheckLiveNode` both end in a nil-dereference panic at
`client.SyncProgress`; neither writes a 503 with an error text. -/
theorem disconnected_node_panics (w : World) (m : Machine) (hnil : m.client = none)
    (hdial : ∀ j, j < 5 → ∃ err, w.connects j = .dialError err) :
    (ensureConnected w m).client = none ∧
    (CheckReadNode w m).1 = .panic .nilDereference ∧
    (CheckLiveNode w m).1 = .panic .nilDereference := by
  have hc : (ensureConnected w m).client = none := by
    simp only [ensureConnected, IsConnected, hnil, Bool.not_false, if_true, TryToConnect]
    exact loop_dialError_client w.connects 5 0 m hnil (by simpa using hdial)
  refine ⟨hc, ?_, ?_⟩
  · simp [CheckReadNode, clientSyncProgress, hc]
  · simp [CheckLiveNode, clientSyncProgress, hc]

/-- Scenario 6: a fresh process whose node refuses every dial. -/
theorem disconnected_node_panics_witness :
    (ensureConnected (unreachable (explorerReply "0x3e8")) freshMachine).client = none ∧
    (CheckReadNode (unreachable (explorerReply "0x3e8")) freshMachine).1
      = .panic .nilDereference ∧
    (CheckLiveNode (unreachable (explorerReply "0x3e8")) freshMachine).1
      = .panic .nilDereference :=
  disconnected_node_panics (unreachable (explorerReply "0x3e8")) freshMachine rfl
    (fun _ _ => ⟨_, rfl⟩)
end HealthCheck
